import Mathlib

/-!
Verification of the fake-news-detection repository's specification.

The repository splits into a React frontend (shipped in the source tree) and a
Python analysis backend (not shipped; only its README, requirements and
callers are present).  Frontend behaviour is embedded directly from the
JavaScript source; backend behaviour (credibility aggregation, the result
store, lexical diversity, the dual explanation mode) is modelled from the
spec, as marked on each definition.
-/

namespace FND

/-! ### Credibility aggregator (spec section 4.9) -/

/-- Classifier label enumeration, from the spec's data model (section 3). -/
inductive Label where
  | REAL
  | FAKE
  | UNCERTAIN
deriving DecidableEq, Repr

/-- Modelled from the spec: the clamp used by the Credibility Aggregator
(section 4.9); the aggregator implementation is not in the source tree. -/
def clamp (lo hi x : ℚ) : ℚ := max lo (min hi x)

/-- Modelled from the spec: the label-driven confidence component of the
credibility score (section 4.9); the aggregator implementation is not in the
source tree. -/
def confidenceComponent : Label → ℚ → ℚ
  | Label.REAL, confidence => confidence
  | Label.FAKE, confidence => 1 - confidence
  | Label.UNCERTAIN, _ => 1 / 2

/-- Modelled from the spec: the fixed weight bounding the propaganda penalty
(section 4.9 says a bounded fraction, e.g. up to 20 points). -/
def propagandaWeight : ℚ := 20

/-- Modelled from the spec: the bounded fraction of the propaganda score that
is subtracted from the label-driven component (section 4.9). -/
def propagandaPenalty (propagandaScore : ℚ) : ℚ :=
  propagandaWeight * propagandaScore / 100

/-- Modelled from the spec: the Credibility Aggregator's pure scoring function
(section 4.9); the aggregator implementation is not in the source tree. -/
def credibility_score (label : Label) (confidence propagandaScore : ℚ) : ℚ :=
  clamp 0 100 (100 * confidenceComponent label confidence - propagandaPenalty propagandaScore)

/-! ### CredibilityMeter component (frontend/src/components/CredibilityMeter.js) -/

/-- The clamped score computed by CredibilityMeter.js line 5:
Math.max(0, Math.min(100, score)). -/
def validScore (score : ℚ) : ℚ := max 0 (min 100 score)

/-- The qualitative label derivation of CredibilityMeter.js lines 15-21,
as a function of the clamped score it reads. -/
def getScoreLabel (v : ℚ) : String :=
  if v ≥ 80 then "Very Credible"
  else if v ≥ 60 then "Credible"
  else if v ≥ 40 then "Neutral"
  else if v ≥ 20 then "Questionable"
  else "Not Credible"

/-- The colour-class derivation of CredibilityMeter.js lines 8-12. -/
def getColorClass (v : ℚ) : String :=
  if v ≥ 70 then "text-real"
  else if v ≥ 40 then "text-neutral"
  else "text-fake"

/-- What the CredibilityMeter component renders: the displayed score number
and its qualitative label. -/
structure MeterView where
  displayedScore : ℚ
  scoreLabel : String
deriving DecidableEq, Repr

/-- The CredibilityMeter component (CredibilityMeter.js lines 3-40): it
displays validScore and the label computed from validScore. -/
def CredibilityMeter (score : ℚ) : MeterView :=
  { displayedScore := validScore score
    scoreLabel := getScoreLabel (validScore score) }

/-! ### Uniqueness analyzer (spec section 4.5) -/

/-- Modelled from the spec: the type-token ratio of the Uniqueness Analyzer
(section 4.5), defined as 0 on an empty token sequence; the analyzer
implementation is not in the source tree. -/
def lexical_diversity (tokens : List String) : ℚ :=
  if tokens.length = 0 then 0
  else (tokens.dedup.length : ℚ) / (tokens.length : ℚ)

/-! ### Result store pagination (spec section 4.10) -/

/-- One page returned by the Result Store list operation. -/
structure Page (α : Type) where
  items : List α
  total : Nat
deriving DecidableEq, Repr

/-- Modelled from the spec: the Result Store list(limit, offset) operation
(section 4.10) over a collection ordered most recent first; the store
implementation is not in the source tree. -/
def listStore {α : Type} (store : List α) (limit offset : Nat) : Page α :=
  { items := (store.drop offset).take limit
    total := store.length }

/-! ### Report store save and lookup (spec sections 3 and 4.10) -/

/-- A persisted analysis result, reduced to the fields the report lifecycle
claims depend on (spec section 3). -/
structure StoredResult where
  label : Label
  confidence : ℚ
  credibilityScore : ℚ
  source_text : String
deriving DecidableEq, Repr

/-- Modelled from the spec: the reports collection of the Result Store
(sections 3 and 4.10), an append-only id-keyed collection; the store
implementation is not in the source tree. -/
structure ReportStore where
  nextId : Nat
  entries : List (Nat × StoredResult)
deriving DecidableEq, Repr

/-- Modelled from the spec: save(result) returns a fresh id and appends the
entry (section 4.10). -/
def saveReport (st : ReportStore) (r : StoredResult) : Nat × ReportStore :=
  (st.nextId, { nextId := st.nextId + 1, entries := (st.nextId, r) :: st.entries })

/-- Modelled from the spec: get(id) looks the entry up by its id
(section 4.10); the frontend caller is getReport in src/unnamed/part_003
lines 132-136. -/
def getReport (st : ReportStore) (id : Nat) : Option StoredResult :=
  (st.entries.find? (fun e => e.1 == id)).map (fun e => e.2)

/-- Well-formedness of the report store: every stored id was assigned before
the current fresh id. -/
def ReportStoreWF (st : ReportStore) : Prop :=
  ∀ e ∈ st.entries, e.1 < st.nextId

/-- Modelled from the spec: an analysis request with save_report set creates
the result once, with source_text the original input (section 3), and saves
it. -/
def analyzeAndSaveReport (st : ReportStore) (text : String) (label : Label)
    (confidence propagandaScore : ℚ) : Nat × ReportStore :=
  saveReport st
    { label := label
      confidence := confidence
      credibilityScore := credibility_score label confidence propagandaScore
      source_text := text }

/-! ### Explanation generator, "both" mode (spec sections 4.8 and 7) -/

/-- The common shape both explanation methods output (spec section 4.8). -/
structure ExplanationData where
  predicted_class : String
  probability : ℚ
  top_features : List (String × ℚ)
deriving DecidableEq, Repr

/-- The explanations block of the response when both methods are requested,
as consumed by ModelExplanationPanel in src/unnamed/part_004: per-method
optional result plus per-method error flag. -/
structure ExplanationsResponse where
  lime_explanations : Option ExplanationData
  shap_explanations : Option ExplanationData
  lime_error : Option String
  shap_error : Option String
deriving DecidableEq, Repr

/-- Result kept from one method run: present on success, absent on failure. -/
def methodOutcomeToOption : Except String ExplanationData → Option ExplanationData
  | Except.ok d => some d
  | Except.error _ => none

/-- Degradation flag for one method run: set exactly on failure. -/
def methodErrorFlag : Except String ExplanationData → Option String
  | Except.ok _ => none
  | Except.error e => some e

/-- Modelled from the spec: the "both" explanation mode (section 4.8) runs
each method independently and always produces a response, with a per-method
error flag instead of a hard failure; the explanation engine is not in the
source tree. -/
def runBothMethods (lime shap : Except String ExplanationData) : ExplanationsResponse :=
  { lime_explanations := methodOutcomeToOption lime
    shap_explanations := methodOutcomeToOption shap
    lime_error := methodErrorFlag lime
    shap_error := methodErrorFlag shap }

/-- What the explanation panel shows for the active tab. -/
inductive TabContent where
  | limeContent (d : ExplanationData)
  | shapContent (d : ExplanationData)
  | noData
deriving DecidableEq, Repr

/-- Tab-content selection of ModelExplanationPanel (src/unnamed/part_004
lines 149-215): show the active tab's data when present, otherwise the
no-data notice. -/
def panelTabContent (ex : ExplanationsResponse) (activeTab : String) : TabContent :=
  if activeTab = "lime" then
    match ex.lime_explanations with
    | some d => TabContent.limeContent d
    | none => TabContent.noData
  else if activeTab = "shap" then
    match ex.shap_explanations with
    | some d => TabContent.shapContent d
    | none => TabContent.noData
  else TabContent.noData

/-! ### Analyze request shape and caller-side validation (spec sections 3 and 6) -/

/-- The request payload posted to the analyze endpoint (spec section 6). -/
structure AnalyzeRequest where
  text : String
  detailed : Bool
  save_report : Bool
  explain : Bool
  explanation_method : String
  num_features : Nat
deriving DecidableEq, Repr

/-- Outcome of a form submission: a validation error shown to the user, or a
request sent to the engine. -/
inductive SubmitOutcome where
  | rejected (errorMessage : String)
  | submitted (request : AnalyzeRequest)
deriving DecidableEq, Repr

/-- True exactly when the submission sent a request. -/
def isSubmitted : SubmitOutcome → Bool
  | SubmitOutcome.submitted _ => true
  | SubmitOutcome.rejected _ => false

/-- JavaScript String.prototype.trim: strip leading and trailing
whitespace. -/
def jsTrim (s : String) : String :=
  String.mk (((s.toList.dropWhile Char.isWhitespace).reverse.dropWhile
    Char.isWhitespace).reverse)

/-- The handleSubmit validation of the enhanced TextAnalysisForm
(src/unnamed/part_007 lines 14-36): empty check, then a 50-character
minimum, then the analyze call with num_features fixed at 10. -/
def handleSubmitEnhanced (text : String) (detailed saveReport explain : Bool)
    (explanationMethod : String) : SubmitOutcome :=
  if jsTrim text = "" then
    SubmitOutcome.rejected "Please enter text to analyze"
  else if (jsTrim text).length < 50 then
    SubmitOutcome.rejected
      "Text is too short. Please enter at least 50 characters for meaningful analysis."
  else
    SubmitOutcome.submitted
      { text := text, detailed := detailed, save_report := saveReport,
        explain := explain, explanation_method := explanationMethod, num_features := 10 }

/-- The handleSubmit validation of the basic TextAnalysisForm
(frontend/src/components/TextAnalysisForm.js lines 11-33): empty check, then
only a 10-character minimum; the omitted options take the client defaults. -/
def handleSubmitBasic (text : String) (detailed saveReport : Bool) : SubmitOutcome :=
  if jsTrim text = "" then
    SubmitOutcome.rejected "Please enter text to analyze"
  else if (jsTrim text).length < 10 then
    SubmitOutcome.rejected "Text is too short. Please enter at least 10 characters."
  else
    SubmitOutcome.submitted
      { text := text, detailed := detailed, save_report := saveReport,
        explain := false, explanation_method := "lime", num_features := 10 }

/-! ### Analyze call defaults (src/unnamed/part_003, part_002, frontend/src/utils/api.js) -/

/-- The payload built by the axios client's analyzeText
(src/unnamed/part_003 lines 96-108). -/
def analyzeTextPayload (text : String) (detailed saveReport explain : Bool)
    (explanationMethod : String) (numFeatures : Nat) : AnalyzeRequest :=
  { text := text, detailed := detailed, save_report := saveReport,
    explain := explain, explanation_method := explanationMethod,
    num_features := numFeatures }

/-- The axios client's analyzeText called with every optional parameter
omitted, so each takes its declared default (src/unnamed/part_003 lines
96-97: detailed = false, saveReport = false, explain = false,
explanationMethod = 'lime', numFeatures = 10). -/
def newsApi_analyzeText_defaults (text : String) : AnalyzeRequest :=
  analyzeTextPayload text false false false "lime" 10

/-- The options object accepted by the fetch client's analyzeText
(frontend/src/utils/api.js lines 155-166); absent fields model omitted
properties. -/
structure AnalyzeOptions where
  detailed : Option Bool
  saveReport : Option Bool
  explain : Option Bool
  explanationMethod : Option String
  numFeatures : Option Nat
deriving DecidableEq, Repr

/-- The empty options object, the default argument of the fetch client's
analyzeText. -/
def emptyAnalyzeOptions : AnalyzeOptions :=
  { detailed := none, saveReport := none, explain := none,
    explanationMethod := none, numFeatures := none }

/-- The fetch client's analyzeText payload construction
(frontend/src/utils/api.js lines 155-166), each option defaulted with the
nullish-coalescing operator. -/
def apiClient_analyzeText (text : String) (options : AnalyzeOptions) : AnalyzeRequest :=
  { text := text
    detailed := options.detailed.getD false
    save_report := options.saveReport.getD false
    explain := options.explain.getD false
    explanation_method := options.explanationMethod.getD "lime"
    num_features := options.numFeatures.getD 10 }

/-- The AnalysisContext wrapper analyzeText called with every optional
parameter omitted (src/unnamed/part_002 lines 49-50): its declared defaults
are detailed = true, saveReport = false, explain = false,
explanationMethod = 'lime', numFeatures = 10, and it forwards them to the
axios client's payload construction. -/
def context_analyzeText_defaults (text : String) : AnalyzeRequest :=
  analyzeTextPayload text true false false "lime" 10

/-! ### Home page localStorage history cap (src/unnamed/part_012 lines 593-600) -/

/-- The Home page's handleResultReceived persistence step
(src/unnamed/part_012 line 597): [newResult, ...history].slice(0, 10). -/
def handleResultReceived {α : Type} (newResult : α) (history : List α) : List α :=
  (newResult :: history).take 10

/-- The persisted localStorage history after a sequence of received results,
starting from the empty history, each applied by handleResultReceived. -/
def historyAfter {α : Type} (received : List α) : List α :=
  received.foldl (fun h r => handleResultReceived r h) []

/-! ### Retry policies (src/unnamed/part_003 lines 61-93, frontend/src/utils/api.js lines 48-108) -/

/-- Outcome of one attempt as the axios client sees it: a value, an error
with an HTTP response attached (error.response set), or an error with no
response (network error or timeout). -/
inductive AttemptOutcome (α : Type) where
  | success (value : α)
  | responseError (status : Nat) (detail : String)
  | networkError (message : String)
deriving DecidableEq, Repr

/-- Trace of one client run: how many attempts were made, the delays slept
between attempts, and the final outcome (the error slot keeps the last
attempt's outcome, none only on the unreachable no-attempt path). -/
structure RunTrace (α : Type) where
  attempts : Nat
  delays : List Nat
  result : Except (Option (AttemptOutcome α)) α
deriving Repr

/-- Retry maximum of the axios client (src/unnamed/part_003 line 52). -/
def MAX_RETRIES : Nat := 3

/-- Base retry delay of the axios client in milliseconds
(src/unnamed/part_003 line 54). -/
def RETRY_DELAY : Nat := 1000

/-- The while loop of makeRequestWithRetry (src/unnamed/part_003 lines
61-93), with fuel standing for the remaining loop iterations
(MAX_RETRIES - retries): attempt; on success return; on an error carrying a
response break immediately; on a network error retry with delay
RETRY_DELAY * 2 ^ retries while retries < MAX_RETRIES - 1, else break. -/
def axiosRetryGo {α : Type} (attempt : Nat → AttemptOutcome α) :
    Nat → Nat → Nat → List Nat → Option (AttemptOutcome α) → RunTrace α
  | 0, _, attemptsMade, delays, lastError =>
      { attempts := attemptsMade, delays := delays, result := Except.error lastError }
  | fuel + 1, retries, attemptsMade, delays, lastError =>
      if retries < MAX_RETRIES then
        match attempt retries with
        | AttemptOutcome.success v =>
            { attempts := attemptsMade + 1, delays := delays, result := Except.ok v }
        | AttemptOutcome.responseError s d =>
            { attempts := attemptsMade + 1, delays := delays,
              result := Except.error (some (AttemptOutcome.responseError s d)) }
        | AttemptOutcome.networkError m =>
            if retries < MAX_RETRIES - 1 then
              axiosRetryGo attempt fuel (retries + 1) (attemptsMade + 1)
                (delays ++ [RETRY_DELAY * 2 ^ retries])
                (some (AttemptOutcome.networkError m))
            else
              { attempts := attemptsMade + 1, delays := delays,
                result := Except.error (some (AttemptOutcome.networkError m)) }
      else
        { attempts := attemptsMade, delays := delays, result := Except.error lastError }

/-- Entry point of the axios client's retry wrapper: retries start at 0 with
no prior error. -/
def makeRequestWithRetry {α : Type} (attempt : Nat → AttemptOutcome α) : RunTrace α :=
  axiosRetryGo attempt MAX_RETRIES 0 0 [] none

/-- Outcome of one attempt as the fetch client sees it: a parsed value, or a
thrown error identified by its message string (HTTP errors throw the server
message, connection failures throw 'Failed to fetch', timeouts throw a
message containing 'timed out'). -/
inductive FetchOutcome (α : Type) where
  | success (value : α)
  | failure (message : String)
deriving DecidableEq, Repr

/-- Trace of one fetch client run. -/
structure FetchTrace (α : Type) where
  attempts : Nat
  delays : List Nat
  result : Except String α
deriving Repr

/-- Retry maximum of the fetch client (frontend/src/utils/api.js line 25). -/
def FETCH_MAX_RETRIES : Nat := 2

/-- Whether the first list is a prefix of the second, on characters. -/
def listStartsWith : List Char → List Char → Bool
  | [], _ => true
  | _ :: _, [] => false
  | c :: cs, d :: ds => c == d && listStartsWith cs ds

/-- Whether the needle occurs contiguously inside the haystack. -/
def listHasSub (needle : List Char) : List Char → Bool
  | [] => listStartsWith needle []
  | c :: cs => listStartsWith needle (c :: cs) || listHasSub needle cs

/-- JavaScript String.prototype.includes, as used on error messages. -/
def stringIncludes (haystack needle : String) : Bool :=
  listHasSub needle.toList haystack.toList

/-- The fetch client's retry condition (frontend/src/utils/api.js line 90):
error.message === 'Failed to fetch' or error.message.includes('timed out'). -/
def fetchShouldRetry (message : String) : Bool :=
  message == "Failed to fetch" || stringIncludes message "timed out"

/-- The recursive makeRequest of the fetch client (frontend/src/utils/api.js
lines 48-108): on a retriable failure with retries left, sleep
(MAX_RETRIES - retries + 1) * 1000 ms and recurse with retries - 1; with no
retries left a 'Failed to fetch' failure is rethrown with a friendly
message; every other failure is rethrown unchanged. -/
def fetchMakeRequestGo {α : Type} (attempt : Nat → FetchOutcome α) :
    Nat → Nat → FetchTrace α
  | 0, idx =>
    match attempt idx with
    | FetchOutcome.success v => { attempts := 1, delays := [], result := Except.ok v }
    | FetchOutcome.failure msg =>
      if fetchShouldRetry msg then
        if msg == "Failed to fetch" then
          { attempts := 1, delays := [],
            result := Except.error
              "No response received from the server. Please check if the backend server is running." }
        else
          { attempts := 1, delays := [], result := Except.error msg }
      else
        { attempts := 1, delays := [], result := Except.error msg }
  | r + 1, idx =>
    match attempt idx with
    | FetchOutcome.success v => { attempts := 1, delays := [], result := Except.ok v }
    | FetchOutcome.failure msg =>
      if fetchShouldRetry msg then
        let rest := fetchMakeRequestGo attempt r (idx + 1)
        { attempts := rest.attempts + 1
          delays := ((FETCH_MAX_RETRIES - (r + 1) + 1) * 1000) :: rest.delays
          result := rest.result }
      else
        { attempts := 1, delays := [], result := Except.error msg }

/-- Entry point of the fetch client's makeRequest: retries start at the
client's retry maximum. -/
def fetch_makeRequest {α : Type} (attempt : Nat → FetchOutcome α) : FetchTrace α :=
  fetchMakeRequestGo attempt FETCH_MAX_RETRIES 0

/-- Whether an axios attempt outcome is a network error, the only kind the
axios client retries. -/
def isNetworkOutcome {α : Type} : AttemptOutcome α → Bool
  | AttemptOutcome.networkError _ => true
  | _ => false

/-- Whether a fetch attempt outcome triggers the fetch client's retry path. -/
def isRetriableFetchOutcome {α : Type} : FetchOutcome α → Bool
  | FetchOutcome.success _ => false
  | FetchOutcome.failure msg => fetchShouldRetry msg

/-! ### Helper lemmas -/

/-- Clamping is idempotent: the clamped score is itself a fixed point. -/
theorem validScore_idem (s : ℚ) : validScore (validScore s) = validScore s := by
  unfold validScore
  rw [min_eq_right (max_le (by norm_num) (min_le_left _ _)),
    max_eq_right (le_max_left _ _)]

/-- Deduplicating a nonempty constant list leaves a single token. -/
theorem dedup_replicate_succ (t : String) :
    ∀ n : Nat, (List.replicate (n + 1) t).dedup = [t] := by
  intro n
  induction n with
  | zero => simp
  | succ m ih =>
      rw [List.replicate_succ, List.dedup_cons_of_mem (by simp), ih]

/-! ### Claim theorems -/

/-- C1: for every analysis, the credibility score equals
clamp(0,100, 100*confidence_component - propaganda_penalty) with the
confidence component mapping REAL to confidence, FAKE to 1 - confidence and
UNCERTAIN to 1/2, the propaganda penalty bounded, the score inside [0,100],
and the score a deterministic function of the (label, confidence,
propaganda_score) triple. -/
theorem C1_credibility_aggregator (label label2 : Label)
    (confidence confidence2 propagandaScore propagandaScore2 : ℚ) :
    credibility_score label confidence propagandaScore
      = clamp 0 100 (100 * confidenceComponent label confidence
          - propagandaPenalty propagandaScore)
    ∧ confidenceComponent Label.REAL confidence = confidence
    ∧ confidenceComponent Label.FAKE confidence = 1 - confidence
    ∧ confidenceComponent Label.UNCERTAIN confidence = 1 / 2
    ∧ (propagandaScore ≤ 100 → propagandaPenalty propagandaScore ≤ 20)
    ∧ 0 ≤ credibility_score label confidence propagandaScore
    ∧ credibility_score label confidence propagandaScore ≤ 100
    ∧ (label = label2 → confidence = confidence2 → propagandaScore = propagandaScore2 →
        credibility_score label confidence propagandaScore
          = credibility_score label2 confidence2 propagandaScore2) := by
  refine ⟨rfl, rfl, rfl, rfl, ?_, ?_, ?_, ?_⟩
  · intro h100
    unfold propagandaPenalty propagandaWeight
    rw [div_le_iff₀ (by norm_num : (0 : ℚ) < 100)]
    linarith
  · exact le_max_left 0 _
  · exact max_le (by norm_num) (min_le_left _ _)
  · intro h1 h2 h3
    rw [h1, h2, h3]

/-- Witness for C1 at the concrete triple (REAL, 3/4, 50). -/
theorem C1_credibility_aggregator_witness :
    propagandaPenalty 50 ≤ 20
    ∧ 0 ≤ credibility_score Label.REAL (3 / 4) 50
    ∧ credibility_score Label.REAL (3 / 4) 50 ≤ 100
    ∧ credibility_score Label.REAL (3 / 4) 50 = credibility_score Label.REAL (3 / 4) 50 := by
  obtain ⟨-, -, -, -, hpen, h0, h100, hdet⟩ :=
    C1_credibility_aggregator Label.REAL Label.REAL (3 / 4) (3 / 4) 50 50
  exact ⟨hpen (by norm_num), h0, h100, hdet rfl rfl rfl⟩

/-- C9: the CredibilityMeter component renders max(0, min(100, score)), so
the displayed credibility is always inside [0,100], and derives its
qualitative label from that clamped value. -/
theorem C9_meter_clamps_score (score : ℚ) :
    (CredibilityMeter score).displayedScore = max 0 (min 100 score)
    ∧ 0 ≤ (CredibilityMeter score).displayedScore
    ∧ (CredibilityMeter score).displayedScore ≤ 100
    ∧ (CredibilityMeter score).scoreLabel
        = getScoreLabel ((CredibilityMeter score).displayedScore)
    ∧ CredibilityMeter score = CredibilityMeter (validScore score)
    ∧ (80 ≤ validScore score → (CredibilityMeter score).scoreLabel = "Very Credible")
    ∧ (validScore score < 20 → (CredibilityMeter score).scoreLabel = "Not Credible") := by
  refine ⟨rfl, le_max_left 0 _, max_le (by norm_num) (min_le_left _ _), rfl,
    by simp [CredibilityMeter, validScore_idem], ?_, ?_⟩
  · intro h
    simp only [CredibilityMeter, getScoreLabel]
    rw [if_pos (by exact h)]
  · intro h
    simp only [CredibilityMeter, getScoreLabel]
    rw [if_neg (by simp only [ge_iff_le, not_le]; linarith),
      if_neg (by simp only [ge_iff_le, not_le]; linarith),
      if_neg (by simp only [ge_iff_le, not_le]; linarith),
      if_neg (by simp only [ge_iff_le, not_le]; linarith)]

/-- Witness for C9 at the out-of-range inputs 150 and -5. -/
theorem C9_meter_clamps_score_witness :
    (CredibilityMeter 150).scoreLabel = "Very Credible"
    ∧ (CredibilityMeter (-5)).scoreLabel = "Not Credible"
    ∧ 0 ≤ (CredibilityMeter (-5)).displayedScore
    ∧ (CredibilityMeter 150).displayedScore ≤ 100 := by
  obtain ⟨-, -, h100, -, -, hvc, -⟩ := C9_meter_clamps_score 150
  obtain ⟨-, h0, -, -, -, -, hnc⟩ := C9_meter_clamps_score (-5)
  refine ⟨hvc ?_, hnc ?_, h0, h100⟩
  · norm_num [validScore]
  · norm_num [validScore]

/-- C7: lexical diversity equals unique over total token count, is 0 on an
empty token sequence, lies in [0,1], equals 1 on all-distinct tokens, and
equals 1/N on a token repeated N > 1 times. -/
theorem C7_lexical_diversity_props (tokens : List String) (t : String) (N : Nat) :
    (tokens.length = 0 → lexical_diversity tokens = 0)
    ∧ (tokens.length ≠ 0 →
        lexical_diversity tokens = (tokens.dedup.length : ℚ) / (tokens.length : ℚ))
    ∧ 0 ≤ lexical_diversity tokens
    ∧ lexical_diversity tokens ≤ 1
    ∧ (tokens.Nodup → tokens ≠ [] → lexical_diversity tokens = 1)
    ∧ (1 < N → lexical_diversity (List.replicate N t) = 1 / (N : ℚ)) := by
  refine ⟨fun h => by simp [lexical_diversity, h], fun h => by simp [lexical_diversity, h],
    ?_, ?_, ?_, ?_⟩
  · unfold lexical_diversity
    split
    · exact le_refl 0
    · positivity
  · unfold lexical_diversity
    split
    · norm_num
    · rename_i h
      rw [div_le_one (by exact_mod_cast Nat.pos_of_ne_zero h)]
      exact_mod_cast List.Sublist.length_le (List.dedup_sublist tokens)
  · intro hnd hne
    have h0 : tokens.length ≠ 0 := fun hh => hne (List.length_eq_zero.mp hh)
    rw [lexical_diversity, if_neg h0, List.dedup_eq_self.mpr hnd,
      div_self (by exact_mod_cast h0)]
  · intro hN
    obtain ⟨m, rfl⟩ : ∃ m, N = m + 1 :=
      ⟨N - 1, (Nat.succ_pred_eq_of_pos (Nat.lt_of_lt_of_le Nat.zero_lt_one hN.le)).symm⟩
    rw [lexical_diversity, if_neg (by simp), dedup_replicate_succ]
    simp

/-- Witness for C7 with distinct tokens, a 3-fold repeated token, and the
empty sequence. -/
theorem C7_lexical_diversity_props_witness :
    lexical_diversity ["alpha", "beta"] = 1
    ∧ lexical_diversity (List.replicate 3 "echo") = 1 / 3
    ∧ lexical_diversity [] = 0
    ∧ 0 ≤ lexical_diversity ["alpha", "beta"]
    ∧ lexical_diversity (List.replicate 3 "echo") ≤ 1 := by
  obtain ⟨-, -, h0, -, hall, -⟩ := C7_lexical_diversity_props ["alpha", "beta"] "echo" 3
  obtain ⟨-, -, -, h1, -, hrep⟩ := C7_lexical_diversity_props (List.replicate 3 "echo") "echo" 3
  obtain ⟨hz, -, -, -, -, -⟩ := C7_lexical_diversity_props [] "echo" 3
  exact ⟨hall (by decide) (by decide), hrep (by norm_num), hz rfl, h0, h1⟩

/-- Prepending then truncating to ten is insensitive to first truncating the
tail to ten. -/
theorem take_cons_take {α : Type} (r : α) (l : List α) :
    (r :: l.take 10).take 10 = (r :: l).take 10 := by
  rw [show (10 : Nat) = 9 + 1 from rfl, List.take_succ_cons, List.take_succ_cons,
    List.take_take]
  norm_num

/-- The persisted history after any received sequence is the ten most recent
results, most recent first. -/
theorem historyAfter_eq {α : Type} (received : List α) :
    historyAfter received = received.reverse.take 10 := by
  induction received using List.reverseRecOn with
  | nil => rfl
  | append_singleton rs r ih =>
      rw [historyAfter, List.foldl_append]
      simp only [List.foldl_cons, List.foldl_nil]
      rw [← historyAfter, ih, handleResultReceived, List.reverse_append]
      simp only [List.reverse_cons, List.reverse_nil, List.nil_append,
        List.singleton_append]
      exact take_cons_take r rs.reverse

/-- C2: the Result Store page satisfies items.length = min(limit, total -
offset) with the correct total, an offset at or past the total yields empty
items, and the 15-item two-page scenario returns 10 then 5 items covering
the store exactly. -/
theorem C2_pagination (α : Type) (store : List α) (limit offset : Nat)
    (store15 : List α) (h15 : store15.length = 15) :
    (listStore store limit offset).items.length = min limit (store.length - offset)
    ∧ (listStore store limit offset).total = store.length
    ∧ (store.length ≤ offset → (listStore store limit offset).items = [])
    ∧ (listStore store15 10 0).items.length = 10
    ∧ (listStore store15 10 10).items.length = 5
    ∧ (listStore store15 10 0).items ++ (listStore store15 10 10).items = store15 := by
  refine ⟨?_, rfl, ?_, ?_, ?_, ?_⟩
  · simp [listStore]
  · intro h
    simp [listStore, List.drop_eq_nil_of_le h]
  · simp [listStore, h15]
  · simp [listStore, h15]
  · have htail : (store15.drop 10).take 10 = store15.drop 10 :=
      List.take_of_length_le (by simp [h15])
    simp [listStore, htail]

/-- Witness for C2 on a concrete 15-item store and an overlarge offset. -/
theorem C2_pagination_witness :
    (listStore (List.range 15) 10 0).items.length = 10
    ∧ (listStore (List.range 15) 10 10).items.length = 5
    ∧ (listStore (List.range 15) 10 0).items ++ (listStore (List.range 15) 10 10).items
        = List.range 15
    ∧ (listStore (List.range 3) 10 5).items = []
    ∧ (listStore (List.range 3) 10 5).total = 3 := by
  obtain ⟨-, htotal, hempty, h10, h5, hcat⟩ :=
    C2_pagination Nat (List.range 3) 10 5 (List.range 15) (by simp)
  exact ⟨h10, h5, hcat, hempty (by simp), by simpa using htotal⟩

/-- C3: fetching a saved report by the id the save returned yields a result
whose source_text is exactly the submitted input, and previously stored
results are never changed by later saves. -/
theorem C3_report_roundtrip (st : ReportStore) (text : String) (label : Label)
    (confidence propagandaScore : ℚ) (next : StoredResult) (oldId : Nat)
    (oldR : StoredResult) :
    (getReport (analyzeAndSaveReport st text label confidence propagandaScore).2
        (analyzeAndSaveReport st text label confidence propagandaScore).1).map
      (fun r => r.source_text) = some text
    ∧ (ReportStoreWF st → getReport st oldId = some oldR →
        getReport (saveReport st next).2 oldId = some oldR)
    ∧ (ReportStoreWF st → ReportStoreWF (saveReport st next).2) := by
  refine ⟨?_, ?_, ?_⟩
  · rw [analyzeAndSaveReport, saveReport, getReport]
    rw [List.find?_cons_of_pos _ (by simp)]
    rfl
  · intro hwf hget
    rw [getReport] at hget
    cases hfind : st.entries.find? (fun e => e.1 == oldId) with
    | none => rw [hfind] at hget; simp at hget
    | some e =>
        rw [hfind] at hget
        simp only [Option.map_some'] at hget
        have hmem := List.mem_of_find?_eq_some hfind
        have he1 : e.1 = oldId := by simpa using List.find?_some hfind
        have hlt : oldId < st.nextId := he1 ▸ hwf e hmem
        rw [saveReport, getReport]
        rw [List.find?_cons_of_neg _ (by simp [Nat.ne_of_gt hlt])]
        rw [hfind, Option.map_some', hget]
  · intro hwf e hmem
    have hsplit : e = (st.nextId, next) ∨ e ∈ st.entries := by
      simpa [saveReport] using hmem
    rcases hsplit with rfl | h
    · exact Nat.lt_succ_self _
    · exact Nat.lt_succ_of_lt (hwf e h)

/-- Witness for C3: save into a one-entry store and observe the roundtrip
and the untouched older entry. -/
theorem C3_report_roundtrip_witness :
    (getReport
        (analyzeAndSaveReport
          { nextId := 1, entries := [(0, ⟨Label.FAKE, 1 / 2, 40, "old text"⟩)] }
          "fresh input" Label.REAL (3 / 4) 10).2
        (analyzeAndSaveReport
          { nextId := 1, entries := [(0, ⟨Label.FAKE, 1 / 2, 40, "old text"⟩)] }
          "fresh input" Label.REAL (3 / 4) 10).1).map (fun r => r.source_text)
      = some "fresh input"
    ∧ getReport
        (saveReport { nextId := 1, entries := [(0, ⟨Label.FAKE, 1 / 2, 40, "old text"⟩)] }
          ⟨Label.REAL, 3 / 4, 70, "newer text"⟩).2 0
      = some ⟨Label.FAKE, 1 / 2, 40, "old text"⟩ := by
  obtain ⟨hround, hkeep, -⟩ :=
    C3_report_roundtrip { nextId := 1, entries := [(0, ⟨Label.FAKE, 1 / 2, 40, "old text"⟩)] }
      "fresh input" Label.REAL (3 / 4) 10 ⟨Label.REAL, 3 / 4, 70, "newer text"⟩ 0
      ⟨Label.FAKE, 1 / 2, 40, "old text"⟩
  refine ⟨hround, hkeep ?_ ?_⟩
  · intro e he
    simp only [List.mem_singleton] at he
    subst he
    exact Nat.zero_lt_one
  · rfl

/-- C8: after each received result the persisted localStorage history is the
new result prepended to the previous history truncated to ten entries, so it
always holds at most the ten most recent results, most recent first. -/
theorem C8_history_retention (α : Type) (r : α) (h : List α) (received : List α) :
    handleResultReceived r h = (r :: h).take 10
    ∧ (handleResultReceived r h).length ≤ 10
    ∧ (handleResultReceived r h).head? = some r
    ∧ historyAfter received = received.reverse.take 10
    ∧ (historyAfter received).length ≤ 10 := by
  refine ⟨rfl, ?_, ?_, historyAfter_eq received, ?_⟩
  · exact List.length_take_le 10 (r :: h)
  · rw [handleResultReceived, show (10 : Nat) = 9 + 1 from rfl, List.take_succ_cons]
    rfl
  · rw [historyAfter_eq]
    exact List.length_take_le _ _

/-- C4 counterexample: a trimmed 20-character input is shorter than 50
characters, yet the basic form submits it — an analyze request is sent. -/
theorem C4_fifty_char_counterexample :
    (jsTrim "abcdefghijklmnopqrst").length < 50
    ∧ isSubmitted (handleSubmitBasic "abcdefghijklmnopqrst" true false) = true := by
  constructor
  · decide
  · decide

/-- C4 as amended: each form validates the trimmed input before sending any
request, rejecting empty input with an error message; the enhanced form
enforces the 50-character minimum, but the basic form enforces only a
10-character minimum, and each submits exactly when its own minimum is
met. -/
theorem C4_input_validation (text : String) (d s ex : Bool) (m : String) :
    (jsTrim text = "" →
        handleSubmitEnhanced text d s ex m
            = SubmitOutcome.rejected "Please enter text to analyze"
        ∧ handleSubmitBasic text d s
            = SubmitOutcome.rejected "Please enter text to analyze")
    ∧ (jsTrim text ≠ "" → (jsTrim text).length < 50 →
        handleSubmitEnhanced text d s ex m
          = SubmitOutcome.rejected
              "Text is too short. Please enter at least 50 characters for meaningful analysis.")
    ∧ (jsTrim text ≠ "" → (jsTrim text).length < 10 →
        handleSubmitBasic text d s
          = SubmitOutcome.rejected "Text is too short. Please enter at least 10 characters.")
    ∧ (isSubmitted (handleSubmitEnhanced text d s ex m) = true
        ↔ jsTrim text ≠ "" ∧ 50 ≤ (jsTrim text).length)
    ∧ (isSubmitted (handleSubmitBasic text d s) = true
        ↔ jsTrim text ≠ "" ∧ 10 ≤ (jsTrim text).length) := by
  refine ⟨?_, ?_, ?_, ?_, ?_⟩
  · intro h
    rw [handleSubmitEnhanced, if_pos h, handleSubmitBasic, if_pos h]
    exact ⟨rfl, rfl⟩
  · intro h hlen
    rw [handleSubmitEnhanced, if_neg h, if_pos hlen]
  · intro h hlen
    rw [handleSubmitBasic, if_neg h, if_pos hlen]
  · constructor
    · intro hsub
      by_cases h1 : jsTrim text = ""
      · rw [handleSubmitEnhanced, if_pos h1] at hsub
        simp [isSubmitted] at hsub
      · by_cases h2 : (jsTrim text).length < 50
        · rw [handleSubmitEnhanced, if_neg h1, if_pos h2] at hsub
          simp [isSubmitted] at hsub
        · exact ⟨h1, Nat.le_of_not_lt h2⟩
    · rintro ⟨h1, h2⟩
      rw [handleSubmitEnhanced, if_neg h1, if_neg (Nat.not_lt.mpr h2)]
      rfl
  · constructor
    · intro hsub
      by_cases h1 : jsTrim text = ""
      · rw [handleSubmitBasic, if_pos h1] at hsub
        simp [isSubmitted] at hsub
      · by_cases h2 : (jsTrim text).length < 10
        · rw [handleSubmitBasic, if_neg h1, if_pos h2] at hsub
          simp [isSubmitted] at hsub
        · exact ⟨h1, Nat.le_of_not_lt h2⟩
    · rintro ⟨h1, h2⟩
      rw [handleSubmitBasic, if_neg h1, if_neg (Nat.not_lt.mpr h2)]
      rfl

/-- Witness for C4 as amended on whitespace-only and short inputs. -/
theorem C4_input_validation_witness :
    handleSubmitEnhanced "   " true false false "lime"
        = SubmitOutcome.rejected "Please enter text to analyze"
    ∧ handleSubmitBasic "short" true false
        = SubmitOutcome.rejected "Text is too short. Please enter at least 10 characters."
    ∧ handleSubmitEnhanced "abcdefghijklmnopqrst" true false false "lime"
        = SubmitOutcome.rejected
            "Text is too short. Please enter at least 50 characters for meaningful analysis." := by
  obtain ⟨hemp, -, -, -, -⟩ := C4_input_validation "   " true false false "lime"
  obtain ⟨-, -, hbasic, -, -⟩ := C4_input_validation "short" true false false "lime"
  obtain ⟨-, henh, -, -, -⟩ := C4_input_validation "abcdefghijklmnopqrst" true false false "lime"
  exact ⟨(hemp (by decide)).1, hbasic (by decide) (by decide), henh (by decide) (by decide)⟩

/-- C5 counterexample: the AnalysisContext wrapper called with every
optional parameter omitted sends detailed = true, not the claimed default
detailed = false. -/
theorem C5_context_default_counterexample :
    (context_analyzeText_defaults "sample article text").detailed = true
    ∧ (context_analyzeText_defaults "sample article text").detailed ≠ false := by
  exact ⟨rfl, by decide⟩

/-- C5 as amended: the axios API client and the fetch API client default to
detailed = false, save_report = false, explain = false,
explanation_method = "lime", num_features = 10 with text the only required
field, while the AnalysisContext wrapper instead defaults detailed to
true. -/
theorem C5_analyze_defaults (text : String) :
    newsApi_analyzeText_defaults text
      = { text := text, detailed := false, save_report := false, explain := false,
          explanation_method := "lime", num_features := 10 }
    ∧ apiClient_analyzeText text emptyAnalyzeOptions
      = { text := text, detailed := false, save_report := false, explain := false,
          explanation_method := "lime", num_features := 10 }
    ∧ context_analyzeText_defaults text
      = { text := text, detailed := true, save_report := false, explain := false,
          explanation_method := "lime", num_features := 10 } :=
  ⟨rfl, rfl, rfl⟩

/-- C6: in the "both" explanation mode each method's outcome is kept
independently; when exactly one method fails the other method's result set
is still present, only the failed method carries an error flag, the panel
can still render the surviving method, and a response is always produced. -/
theorem C6_both_mode_independence (lime shap : Except String ExplanationData)
    (d : ExplanationData) (e : String) :
    (shap = Except.ok d → (runBothMethods lime shap).shap_explanations = some d)
    ∧ (lime = Except.ok d → (runBothMethods lime shap).lime_explanations = some d)
    ∧ (runBothMethods lime shap).lime_error = methodErrorFlag lime
    ∧ (runBothMethods lime shap).shap_error = methodErrorFlag shap
    ∧ (lime = Except.error e → shap = Except.ok d →
        (runBothMethods lime shap).lime_error = some e
        ∧ (runBothMethods lime shap).shap_error = none
        ∧ (runBothMethods lime shap).shap_explanations = some d
        ∧ panelTabContent (runBothMethods lime shap) "shap" = TabContent.shapContent d)
    ∧ (shap = Except.error e → lime = Except.ok d →
        (runBothMethods lime shap).shap_error = some e
        ∧ (runBothMethods lime shap).lime_error = none
        ∧ (runBothMethods lime shap).lime_explanations = some d
        ∧ panelTabContent (runBothMethods lime shap) "lime" = TabContent.limeContent d) := by
  refine ⟨?_, ?_, rfl, rfl, ?_, ?_⟩
  · rintro rfl; rfl
  · rintro rfl; rfl
  · rintro rfl rfl
    refine ⟨rfl, rfl, rfl, ?_⟩
    simp [panelTabContent, runBothMethods, methodOutcomeToOption]
  · rintro rfl rfl
    refine ⟨rfl, rfl, rfl, ?_⟩
    simp [panelTabContent, runBothMethods, methodOutcomeToOption]

/-- Witness for C6 with a failing perturbation method and a succeeding
attribution method. -/
theorem C6_both_mode_independence_witness :
    (runBothMethods (Except.error "zero-length text after masking")
        (Except.ok ⟨"FAKE", 9 / 10, [("shocking", 1 / 2)]⟩)).shap_explanations
      = some ⟨"FAKE", 9 / 10, [("shocking", 1 / 2)]⟩
    ∧ (runBothMethods (Except.error "zero-length text after masking")
        (Except.ok ⟨"FAKE", 9 / 10, [("shocking", 1 / 2)]⟩)).lime_error
      = some "zero-length text after masking"
    ∧ (runBothMethods (Except.error "zero-length text after masking")
        (Except.ok ⟨"FAKE", 9 / 10, [("shocking", 1 / 2)]⟩)).shap_error = none
    ∧ panelTabContent
        (runBothMethods (Except.error "zero-length text after masking")
          (Except.ok ⟨"FAKE", 9 / 10, [("shocking", 1 / 2)]⟩)) "shap"
      = TabContent.shapContent ⟨"FAKE", 9 / 10, [("shocking", 1 / 2)]⟩ := by
  obtain ⟨-, -, -, -, hboth, -⟩ :=
    C6_both_mode_independence (Except.error "zero-length text after masking")
      (Except.ok ⟨"FAKE", 9 / 10, [("shocking", 1 / 2)]⟩)
      ⟨"FAKE", 9 / 10, [("shocking", 1 / 2)]⟩ "zero-length text after masking"
  obtain ⟨h1, h2, h3, h4⟩ := hboth rfl rfl
  exact ⟨h3, h1, h2, h4⟩

/-- One unfolding step of the axios retry loop at fuel 3, retry counter 0:
the first attempt either settles the run or retries after a 1000 ms delay. -/
theorem axiosRetryGo_step3 {α : Type} (attempt : Nat → AttemptOutcome α)
    (a : Nat) (ds : List Nat) (le : Option (AttemptOutcome α)) :
    axiosRetryGo attempt 3 0 a ds le =
      match attempt 0 with
      | AttemptOutcome.success v => ⟨a + 1, ds, Except.ok v⟩
      | AttemptOutcome.responseError s d =>
          ⟨a + 1, ds, Except.error (some (AttemptOutcome.responseError s d))⟩
      | AttemptOutcome.networkError m =>
          axiosRetryGo attempt 2 1 (a + 1) (ds ++ [1000])
            (some (AttemptOutcome.networkError m)) := rfl

/-- One unfolding step of the axios retry loop at fuel 2, retry counter 1:
the second attempt either settles the run or retries after a 2000 ms delay. -/
theorem axiosRetryGo_step2 {α : Type} (attempt : Nat → AttemptOutcome α)
    (a : Nat) (ds : List Nat) (le : Option (AttemptOutcome α)) :
    axiosRetryGo attempt 2 1 a ds le =
      match attempt 1 with
      | AttemptOutcome.success v => ⟨a + 1, ds, Except.ok v⟩
      | AttemptOutcome.responseError s d =>
          ⟨a + 1, ds, Except.error (some (AttemptOutcome.responseError s d))⟩
      | AttemptOutcome.networkError m =>
          axiosRetryGo attempt 1 2 (a + 1) (ds ++ [2000])
            (some (AttemptOutcome.networkError m)) := rfl

/-- One unfolding step of the axios retry loop at fuel 1, retry counter 2:
the third attempt always settles the run, retries being exhausted. -/
theorem axiosRetryGo_step1 {α : Type} (attempt : Nat → AttemptOutcome α)
    (a : Nat) (ds : List Nat) (le : Option (AttemptOutcome α)) :
    axiosRetryGo attempt 1 2 a ds le =
      match attempt 2 with
      | AttemptOutcome.success v => ⟨a + 1, ds, Except.ok v⟩
      | AttemptOutcome.responseError s d =>
          ⟨a + 1, ds, Except.error (some (AttemptOutcome.responseError s d))⟩
      | AttemptOutcome.networkError m =>
          ⟨a + 1, ds, Except.error (some (AttemptOutcome.networkError m))⟩ := rfl

/-- Full evaluation of the axios retry loop in terms of the first three
attempt outcomes. -/
theorem axiosRun_eval {α : Type} (attempt : Nat → AttemptOutcome α) :
    makeRequestWithRetry attempt =
      match attempt 0 with
      | AttemptOutcome.success v => ⟨1, [], Except.ok v⟩
      | AttemptOutcome.responseError s d =>
          ⟨1, [], Except.error (some (AttemptOutcome.responseError s d))⟩
      | AttemptOutcome.networkError _ =>
        match attempt 1 with
        | AttemptOutcome.success v => ⟨2, [1000], Except.ok v⟩
        | AttemptOutcome.responseError s d =>
            ⟨2, [1000], Except.error (some (AttemptOutcome.responseError s d))⟩
        | AttemptOutcome.networkError _ =>
          match attempt 2 with
          | AttemptOutcome.success v => ⟨3, [1000, 2000], Except.ok v⟩
          | AttemptOutcome.responseError s d =>
              ⟨3, [1000, 2000], Except.error (some (AttemptOutcome.responseError s d))⟩
          | AttemptOutcome.networkError m2 =>
              ⟨3, [1000, 2000], Except.error (some (AttemptOutcome.networkError m2))⟩ := by
  rw [makeRequestWithRetry, MAX_RETRIES, axiosRetryGo_step3]
  rcases h0 : attempt 0 with v | s | m
  · simp [h0]
  · simp [h0]
  · simp only [h0]
    rw [axiosRetryGo_step2]
    rcases h1 : attempt 1 with v1 | s1 | m1
    · simp [h1]
    · simp [h1]
    · simp only [h1]
      rw [axiosRetryGo_step1]
      rcases h2 : attempt 2 with v2 | s2 | m2 <;> simp [h2]

/-- Unfolding of the fetch client's request with no retries left. -/
theorem fetchGo_zero_unfold {α : Type} (attempt : Nat → FetchOutcome α) (idx : Nat) :
    fetchMakeRequestGo attempt 0 idx =
      match attempt idx with
      | FetchOutcome.success v => ⟨1, [], Except.ok v⟩
      | FetchOutcome.failure msg =>
        if fetchShouldRetry msg then
          if msg == "Failed to fetch" then
            ⟨1, [], Except.error
              "No response received from the server. Please check if the backend server is running."⟩
          else ⟨1, [], Except.error msg⟩
        else ⟨1, [], Except.error msg⟩ := rfl

/-- Unfolding of the fetch client's request with one retry left: a retriable
failure sleeps 2000 ms and recurses. -/
theorem fetchGo_one_unfold {α : Type} (attempt : Nat → FetchOutcome α) (idx : Nat) :
    fetchMakeRequestGo attempt 1 idx =
      match attempt idx with
      | FetchOutcome.success v => ⟨1, [], Except.ok v⟩
      | FetchOutcome.failure msg =>
        if fetchShouldRetry msg then
          ⟨(fetchMakeRequestGo attempt 0 (idx + 1)).attempts + 1,
            2000 :: (fetchMakeRequestGo attempt 0 (idx + 1)).delays,
            (fetchMakeRequestGo attempt 0 (idx + 1)).result⟩
        else ⟨1, [], Except.error msg⟩ := rfl

/-- Unfolding of the fetch client's request with two retries left: a
retriable failure sleeps 1000 ms and recurses. -/
theorem fetchGo_two_unfold {α : Type} (attempt : Nat → FetchOutcome α) (idx : Nat) :
    fetchMakeRequestGo attempt 2 idx =
      match attempt idx with
      | FetchOutcome.success v => ⟨1, [], Except.ok v⟩
      | FetchOutcome.failure msg =>
        if fetchShouldRetry msg then
          ⟨(fetchMakeRequestGo attempt 1 (idx + 1)).attempts + 1,
            1000 :: (fetchMakeRequestGo attempt 1 (idx + 1)).delays,
            (fetchMakeRequestGo attempt 1 (idx + 1)).result⟩
        else ⟨1, [], Except.error msg⟩ := rfl

/-- With no retries left the fetch client makes exactly one attempt. -/
theorem fetchGo_zero_attempts {α : Type} (attempt : Nat → FetchOutcome α) (idx : Nat) :
    (fetchMakeRequestGo attempt 0 idx).attempts = 1 := by
  rw [fetchGo_zero_unfold]
  rcases h : attempt idx with v | msg
  · simp [h]
  · simp only [h]
    split
    · split <;> rfl
    · rfl

/-- With one retry left the fetch client makes at most two attempts. -/
theorem fetchGo_one_attempts_le {α : Type} (attempt : Nat → FetchOutcome α) (idx : Nat) :
    (fetchMakeRequestGo attempt 1 idx).attempts ≤ 2 := by
  rw [fetchGo_one_unfold]
  rcases h : attempt idx with v | msg
  · simp [h]
  · simp only [h]
    split
    · simp [fetchGo_zero_attempts]
    · simp

/-- C10 as amended: both clients retry only errors without an HTTP response
(the fetch client recognising them by the thrown message), surface response
errors immediately, make at most three attempts in total (the fetch client's
retry maximum of 2 counts retries after the initial attempt), and sleep
increasing delays of 1000 ms then 2000 ms between attempts. -/
theorem C10_retry_policy {α : Type} (attempt : Nat → AttemptOutcome α)
    (fattempt : Nat → FetchOutcome α) (s : Nat) (d msg : String) :
    (makeRequestWithRetry attempt).attempts ≤ 3
    ∧ (attempt 0 = AttemptOutcome.responseError s d →
        makeRequestWithRetry attempt
          = ⟨1, [], Except.error (some (AttemptOutcome.responseError s d))⟩)
    ∧ (2 ≤ (makeRequestWithRetry attempt).attempts → isNetworkOutcome (attempt 0) = true)
    ∧ ((∀ i, attempt i = AttemptOutcome.networkError msg) →
        makeRequestWithRetry attempt
          = ⟨3, [1000, 2000], Except.error (some (AttemptOutcome.networkError msg))⟩)
    ∧ (fetch_makeRequest fattempt).attempts ≤ 3
    ∧ (fattempt 0 = FetchOutcome.failure msg → fetchShouldRetry msg = false →
        fetch_makeRequest fattempt = ⟨1, [], Except.error msg⟩)
    ∧ (2 ≤ (fetch_makeRequest fattempt).attempts →
        isRetriableFetchOutcome (fattempt 0) = true)
    ∧ ((∀ i, fattempt i = FetchOutcome.failure "Failed to fetch") →
        fetch_makeRequest fattempt
          = ⟨3, [1000, 2000],
              Except.error
                "No response received from the server. Please check if the backend server is running."⟩) := by
  refine ⟨?_, ?_, ?_, ?_, ?_, ?_, ?_, ?_⟩
  · rw [axiosRun_eval]
    rcases h0 : attempt 0 with v | s0 | m0 <;> simp only [h0]
    · norm_num
    · norm_num
    · rcases h1 : attempt 1 with v1 | s1 | m1 <;> simp only [h1]
      · norm_num
      · norm_num
      · rcases h2 : attempt 2 with v2 | s2 | m2 <;> simp only [h2] <;> norm_num
  · intro h0
    rw [axiosRun_eval, h0]
  · intro h2
    rw [axiosRun_eval] at h2
    rcases h0 : attempt 0 with v | s0 | m0
    · rw [h0] at h2; simp at h2
    · rw [h0] at h2; simp at h2
    · rfl
  · intro hall
    rw [axiosRun_eval, hall 0, hall 1, hall 2]
  · rw [fetch_makeRequest, FETCH_MAX_RETRIES, fetchGo_two_unfold]
    rcases h0 : fattempt 0 with v | m0
    · simp [h0]
    · simp only [h0]
      split
      · exact Nat.succ_le_succ (fetchGo_one_attempts_le fattempt (0 + 1))
      · simp
  · intro h0 hr
    rw [fetch_makeRequest, FETCH_MAX_RETRIES, fetchGo_two_unfold, h0]
    simp [hr]
  · intro h2
    rw [fetch_makeRequest, FETCH_MAX_RETRIES, fetchGo_two_unfold] at h2
    rcases h0 : fattempt 0 with v | m0
    · rw [h0] at h2; simp at h2
    · rw [h0] at h2
      by_cases hr : fetchShouldRetry m0 = true
      · simp [isRetriableFetchOutcome, h0, hr]
      · simp [hr] at h2
  · intro hall
    have hretry : fetchShouldRetry "Failed to fetch" = true := rfl
    have hbeq : ("Failed to fetch" == "Failed to fetch") = true := rfl
    rw [fetch_makeRequest, FETCH_MAX_RETRIES, fetchGo_two_unfold, hall 0]
    simp only [hretry, if_true]
    rw [fetchGo_one_unfold, hall (0 + 1)]
    simp only [hretry, if_true]
    rw [fetchGo_zero_unfold, hall (0 + 1 + 1)]
    simp only [hretry, hbeq, if_true]

/-- C10 counterexample: with every attempt a connection failure, the fetch
client makes three attempts in total, exceeding the claimed bound of two. -/
theorem C10_fetch_attempts_counterexample :
    (fetch_makeRequest ((fun _ => FetchOutcome.failure "Failed to fetch") :
        Nat → FetchOutcome Nat)).attempts = 3
    ∧ ¬ ((fetch_makeRequest ((fun _ => FetchOutcome.failure "Failed to fetch") :
        Nat → FetchOutcome Nat)).attempts ≤ 2) := by
  constructor
  · rfl
  · decide

/-- Witness for C10 on concrete attempt sequences: persistent network
failure and an immediate HTTP error, for each client. -/
theorem C10_retry_policy_witness :
    makeRequestWithRetry ((fun _ => AttemptOutcome.networkError "socket hang up") :
        Nat → AttemptOutcome Nat)
      = ⟨3, [1000, 2000], Except.error (some (AttemptOutcome.networkError "socket hang up"))⟩
    ∧ makeRequestWithRetry ((fun _ => AttemptOutcome.responseError 503 "Service Unavailable") :
        Nat → AttemptOutcome Nat)
      = ⟨1, [], Except.error (some (AttemptOutcome.responseError 503 "Service Unavailable"))⟩
    ∧ fetch_makeRequest ((fun _ => FetchOutcome.failure "Failed to fetch") :
        Nat → FetchOutcome Nat)
      = ⟨3, [1000, 2000],
          Except.error
            "No response received from the server. Please check if the backend server is running."⟩
    ∧ fetch_makeRequest ((fun _ => FetchOutcome.failure "Server returned 404 Not Found") :
        Nat → FetchOutcome Nat)
      = ⟨1, [], Except.error "Server returned 404 Not Found"⟩ := by
  obtain ⟨-, -, -, hnet, -, -, -, -⟩ :=
    C10_retry_policy ((fun _ => AttemptOutcome.networkError "socket hang up") :
        Nat → AttemptOutcome Nat)
      ((fun _ => FetchOutcome.failure "Failed to fetch") : Nat → FetchOutcome Nat)
      503 "Service Unavailable" "socket hang up"
  obtain ⟨-, hresp, -, -, -, -, -, hfetch⟩ :=
    C10_retry_policy ((fun _ => AttemptOutcome.responseError 503 "Service Unavailable") :
        Nat → AttemptOutcome Nat)
      ((fun _ => FetchOutcome.failure "Failed to fetch") : Nat → FetchOutcome Nat)
      503 "Service Unavailable" "socket hang up"
  obtain ⟨-, -, -, -, -, hhttp, -, -⟩ :=
    C10_retry_policy ((fun _ => AttemptOutcome.responseError 503 "Service Unavailable") :
        Nat → AttemptOutcome Nat)
      ((fun _ => FetchOutcome.failure "Server returned 404 Not Found") :
        Nat → FetchOutcome Nat)
      503 "Service Unavailable" "Server returned 404 Not Found"
  exact ⟨hnet (fun i => rfl), hresp rfl, hfetch (fun i => rfl), hhttp rfl (by decide)⟩

end FND
